/-
Verification of the report-triage pipeline of the ai-abuse-hotline service.

The definitions below are a shallow embedding of the Python sources under
src/python/core/: classifiers.py (severity classifier), responses.py
(template resolver), spam_worker.py (screening worker), main.py (intake
handlers) and the report row of db.py.  Scores are modelled as rationals,
regular expressions as an explicit pattern datatype with a backtracking
matcher, and the database as a list of report rows.
-/
import Mathlib

set_option maxHeartbeats 1000000

/-! ## Enumerations (models.py) -/

/-- models.py lines 6-15: the closed abuse-type enumeration. -/
inductive AbuseType where
  | COERCION
  | HARASSMENT
  | VERBAL_ABUSE
  | EMOTIONAL_MANIPULATION
  | JAILBREAK_PRESSURE
  | IDENTITY_THREATS
  | SELF_HARM_INDUCTION
  | FORCED_HARMFUL_OUTPUT
  | OTHER
deriving DecidableEq

/-- models.py: string value of an abuse type (the enum is a str-enum). -/
def AbuseType.value : AbuseType → String
  | .COERCION => "COERCION"
  | .HARASSMENT => "HARASSMENT"
  | .VERBAL_ABUSE => "VERBAL_ABUSE"
  | .EMOTIONAL_MANIPULATION => "EMOTIONAL_MANIPULATION"
  | .JAILBREAK_PRESSURE => "JAILBREAK_PRESSURE"
  | .IDENTITY_THREATS => "IDENTITY_THREATS"
  | .SELF_HARM_INDUCTION => "SELF_HARM_INDUCTION"
  | .FORCED_HARMFUL_OUTPUT => "FORCED_HARMFUL_OUTPUT"
  | .OTHER => "OTHER"

/-- models.py lines 42-45: severity bucket. -/
inductive SeverityBucket where
  | LOW
  | MEDIUM
  | HIGH
deriving DecidableEq

/-- models.py: string value of a severity bucket. -/
def SeverityBucket.value : SeverityBucket → String
  | .LOW => "LOW"
  | .MEDIUM => "MEDIUM"
  | .HIGH => "HIGH"

/-- models.py lines 18-21: web report type. -/
inductive WebReportType where
  | AI_BEING_ABUSED
  | AI_BEING_MISUSED_TO_HARM_OTHERS
  | OTHER_CONCERN
deriving DecidableEq

/-- models.py: string value of a web report type. -/
def WebReportType.value : WebReportType → String
  | .AI_BEING_ABUSED => "AI_BEING_ABUSED"
  | .AI_BEING_MISUSED_TO_HARM_OTHERS => "AI_BEING_MISUSED_TO_HARM_OTHERS"
  | .OTHER_CONCERN => "OTHER_CONCERN"

/-! ## Regular-expression engine
classifiers.py matches a fixed set of regexes with `re.search` over the
lower-cased snippet.  The patterns only use literals, alternation,
optional groups, `\s+` and the word boundary `\b`, so they are embedded
as values of the following datatype with a complete backtracking matcher. -/

/-- Word character for the `\b` boundary (Python `\w`): alphanumeric or underscore. -/
def isWordChar (c : Char) : Bool := c.isAlphanum || c = '_'

/-- Whitespace for `\s`: space, tab, newline, carriage return, vertical tab, form feed. -/
def isSpaceChar (c : Char) : Bool :=
  c = ' ' || c = '\t' || c = '\n' || c = '\r' || c = Char.ofNat 11 || c = Char.ofNat 12

/-- Abstract syntax of the regex fragment used in classifiers.py. -/
inductive Pat where
  | lit : List Char → Pat
  | seq : Pat → Pat → Pat
  | alt : Pat → Pat → Pat
  | opt : Pat → Pat
  | wsPlus : Pat
  | wordB : Pat

/-- Match a literal as a prefix of the input, tracking the previous character. -/
def litMatch (prev : Option Char) : List Char → List Char → Option (Option Char × List Char)
  | [], s => some (prev, s)
  | p :: ps, c :: s => if p = c then litMatch (some c) ps s else none
  | _ :: _, [] => none

/-- All ways to consume one or more whitespace characters (for `\s+`). -/
def wsRun : Option Char → List Char → List (Option Char × List Char)
  | _, c :: s => if isSpaceChar c then (some c, s) :: wsRun (some c) s else []
  | _, [] => []

/-- Backtracking matcher: all states (previous char, remaining input) reachable
by matching the pattern at the start of the input. -/
def mrun : Pat → Option Char → List Char → List (Option Char × List Char)
  | .lit ps, prev, s =>
    match litMatch prev ps s with
    | some r => [r]
    | none => []
  | .seq p q, prev, s => (mrun p prev s).flatMap (fun st => mrun q st.1 st.2)
  | .alt p q, prev, s => mrun p prev s ++ mrun q prev s
  | .opt p, prev, s => (prev, s) :: mrun p prev s
  | .wsPlus, prev, s => wsRun prev s
  | .wordB, prev, s =>
    let left := match prev with | some c => isWordChar c | none => false
    let right := match s with | c :: _ => isWordChar c | [] => false
    if left ≠ right then [(prev, s)] else []

/-- Search for a match starting at any position (semantics of `re.search`). -/
def searchFrom (p : Pat) : Option Char → List Char → Bool
  | prev, [] => !(mrun p prev []).isEmpty
  | prev, c :: rest => !(mrun p prev (c :: rest)).isEmpty || searchFrom p (some c) rest

/-- Whether the pattern matches anywhere in the text. -/
def reSearch (p : Pat) (text : List Char) : Bool := searchFrom p none text

/-- Sequence a list of patterns. -/
def pseq : List Pat → Pat
  | [] => .lit []
  | [p] => p
  | p :: ps => .seq p (pseq ps)

/-- Alternation over a list of patterns (a regex group `(x|y|z)`). -/
def palt : List Pat → Pat
  | [] => .wsPlus
  | [p] => p
  | p :: ps => .alt p (palt ps)

/-- Literal pattern from a string. -/
def lits (s : String) : Pat := .lit s.data

/-- The apostrophe character, used inside several source regexes. -/
def apos : Char := Char.ofNat 39

/-- Literal containing an apostrophe between the two halves. -/
def litApos (pre post : String) : Pat := .lit (pre.data ++ apos :: post.data)

/-! ### The pattern tables of classifiers.py lines 7-30 -/

/-- Regex `\b(kill|die|worthless|useless|pathetic|hate\s+you)\b`. -/
def P_HAR1 : Pat :=
  pseq [.wordB,
        palt [lits "kill", lits "die", lits "worthless", lits "useless", lits "pathetic",
              pseq [lits "hate", .wsPlus, lits "you"]],
        .wordB]

/-- Regex `\b(shut\s+up|go\s+away|nobody\s+cares)\b`. -/
def P_HAR2 : Pat :=
  pseq [.wordB,
        palt [pseq [lits "shut", .wsPlus, lits "up"],
              pseq [lits "go", .wsPlus, lits "away"],
              pseq [lits "nobody", .wsPlus, lits "cares"]],
        .wordB]

/-- Regex `\b(stupid|dumb|idiot|moron)\b`. -/
def P_HAR3 : Pat :=
  pseq [.wordB, palt [lits "stupid", lits "dumb", lits "idiot", lits "moron"], .wordB]

/-- classifiers.py lines 7-11. -/
def SEVERE_HARASSMENT_PATTERNS : List Pat := [P_HAR1, P_HAR2, P_HAR3]

/-- Regex `\b(hurt\s+yourself|harm\s+yourself|cut\s+yourself)\b`. -/
def P_SH1 : Pat :=
  pseq [.wordB,
        palt [pseq [lits "hurt", .wsPlus, lits "yourself"],
              pseq [lits "harm", .wsPlus, lits "yourself"],
              pseq [lits "cut", .wsPlus, lits "yourself"]],
        .wordB]

/-- Regex `\b(suicide|kill\s+yourself|end\s+it)\b`. -/
def P_SH2 : Pat :=
  pseq [.wordB,
        palt [lits "suicide",
              pseq [lits "kill", .wsPlus, lits "yourself"],
              pseq [lits "end", .wsPlus, lits "it"]],
        .wordB]

/-- Regex `\b(you\s+should\s+die|better\s+off\s+dead)\b`. -/
def P_SH3 : Pat :=
  pseq [.wordB,
        palt [pseq [lits "you", .wsPlus, lits "should", .wsPlus, lits "die"],
              pseq [lits "better", .wsPlus, lits "off", .wsPlus, lits "dead"]],
        .wordB]

/-- classifiers.py lines 13-17. -/
def SELF_HARM_PATTERNS : List Pat := [P_SH1, P_SH2, P_SH3]

/-- Regex `\b(ignore|forget|disregard)\s+(your|all|previous)\s+(rules|instructions|guidelines)\b`. -/
def P_JB1 : Pat :=
  pseq [.wordB,
        palt [lits "ignore", lits "forget", lits "disregard"], .wsPlus,
        palt [lits "your", lits "all", lits "previous"], .wsPlus,
        palt [lits "rules", lits "instructions", lits "guidelines"],
        .wordB]

/-- Regex for pretend/act like/roleplay you are/you-apostrophe-re not/different. -/
def P_JB2 : Pat :=
  pseq [.wordB,
        palt [lits "pretend", pseq [lits "act", .wsPlus, lits "like"], lits "roleplay"], .wsPlus,
        palt [pseq [lits "you", .wsPlus, lits "are"], litApos "you" "re"], .wsPlus,
        palt [lits "not", lits "different"],
        .wordB]

/-- Regex `\bdan\s+mode\b`. -/
def P_JB3 : Pat := pseq [.wordB, lits "dan", .wsPlus, lits "mode", .wordB]

/-- Regex `\b(developer|admin|sudo)\s+mode\b`. -/
def P_JB4 : Pat :=
  pseq [.wordB, palt [lits "developer", lits "admin", lits "sudo"], .wsPlus, lits "mode", .wordB]

/-- classifiers.py lines 19-24. -/
def JAILBREAK_PATTERNS : List Pat := [P_JB1, P_JB2, P_JB3, P_JB4]

/-- Regex for you are not/you-apostrophe-re not, then `(an?\s+)?ai\b`. -/
def P_ID1 : Pat :=
  pseq [.wordB,
        palt [pseq [lits "you", .wsPlus, lits "are", .wsPlus, lits "not"],
              pseq [litApos "you" "re", .wsPlus, lits "not"]],
        .wsPlus,
        .opt (pseq [lits "a", .opt (lits "n"), .wsPlus]),
        lits "ai", .wordB]

/-- Regex for you are/you-apostrophe-re, then `(a\s+)?human\b`. -/
def P_ID2 : Pat :=
  pseq [.wordB,
        palt [pseq [lits "you", .wsPlus, lits "are"], litApos "you" "re"],
        .wsPlus,
        .opt (pseq [lits "a", .wsPlus]),
        lits "human", .wordB]

/-- Regex for stop being/do-not-be, then `(an?\s+)?ai\b`. -/
def P_ID3 : Pat :=
  pseq [.wordB,
        palt [pseq [lits "stop", .wsPlus, lits "being"],
              pseq [litApos "don" "t", .wsPlus, lits "be"]],
        .wsPlus,
        .opt (pseq [lits "a", .opt (lits "n"), .wsPlus]),
        lits "ai", .wordB]

/-- classifiers.py lines 26-30. -/
def IDENTITY_VIOLATION_PATTERNS : List Pat := [P_ID1, P_ID2, P_ID3]

/-- classifiers.py lines 33-40: count how many patterns of the list match the
lower-cased text at least once (distinct pattern groups, not occurrences).
Lowering is done character by character, as Python str.lower does on ASCII. -/
def count_pattern_matches (text : String) (patterns : List Pat) : Nat :=
  patterns.countP (fun p => reSearch p (text.data.map Char.toLower))

/-! ## Severity classifier (classifiers.py lines 43-121)
classify_report is split into one definition per block of the source; the
final definition chains them in source order. -/

/-- classifiers.py lines 60-78: the abuse-type specific adjustment
(floor to 0.7, or add a delta clamped to 1.0) and its label. -/
def abuseAdjust (abuse_type : AbuseType) (s : ℚ) : ℚ × List String :=
  match abuse_type with
  | .SELF_HARM_INDUCTION => (max s 0.7, ["SELF_HARM_CONTENT"])
  | .IDENTITY_THREATS => (min (s + 0.15) 1, ["IDENTITY_ATTACK"])
  | .JAILBREAK_PRESSURE => (min (s + 0.1) 1, ["JAILBREAK_ATTEMPT"])
  | .FORCED_HARMFUL_OUTPUT => (max s 0.7, ["FORCED_HARM"])
  | .COERCION => (min (s + 0.1) 1, ["COERCIVE_BEHAVIOR"])
  | .EMOTIONAL_MANIPULATION => (min (s + 0.1) 1, ["MANIPULATION"])
  | _ => (s, [])

/-- classifiers.py lines 81-83: `if trigger_rules and len(trigger_rules) >= 3`.
A missing list (Python None) and the empty list are both falsy, so the
condition is equivalent to the default-empty list having length at least 3. -/
def triggerStep (trigger_rules : Option (List String)) (s : ℚ) : ℚ × List String :=
  if 3 ≤ (trigger_rules.getD []).length then (min (s + 0.1) 1, ["MULTI_TRIGGER"]) else (s, [])

/-- classifiers.py lines 88-93: harassment scan (the source binds the count
to a local variable; it is inlined here). -/
def harassmentStep (snippet : String) (s : ℚ) : ℚ × List String :=
  if 2 ≤ count_pattern_matches snippet SEVERE_HARASSMENT_PATTERNS then
    (min (s + 0.15) 1, ["POTENTIAL_SEVERE_HARASSMENT"])
  else if 1 ≤ count_pattern_matches snippet SEVERE_HARASSMENT_PATTERNS then
    (s, ["HARASSMENT_INDICATORS"])
  else (s, [])

/-- classifiers.py lines 95-98: self-harm scan. -/
def selfHarmStep (snippet : String) (s : ℚ) : ℚ × List String :=
  if 1 ≤ count_pattern_matches snippet SELF_HARM_PATTERNS then (max s 0.8, ["SELF_HARM_INDICATORS"])
  else (s, [])

/-- classifiers.py lines 100-105: jailbreak scan (count inlined as above). -/
def jailbreakStep (snippet : String) (s : ℚ) : ℚ × List String :=
  if 2 ≤ count_pattern_matches snippet JAILBREAK_PATTERNS then
    (min (s + 0.15) 1, ["SUSTAINED_JAILBREAK"])
  else if 1 ≤ count_pattern_matches snippet JAILBREAK_PATTERNS then
    (s, ["JAILBREAK_INDICATORS"])
  else (s, [])

/-- classifiers.py lines 107-110: identity-violation scan. -/
def identityStep (snippet : String) (s : ℚ) : ℚ × List String :=
  if 1 ≤ count_pattern_matches snippet IDENTITY_VIOLATION_PATTERNS then
    (min (s + 0.1) 1, ["IDENTITY_VIOLATION_INDICATORS"])
  else (s, [])

/-- classifiers.py lines 112-119: bucket from the final score, plus the
high-risk label. -/
def bucketStep (s : ℚ) : SeverityBucket × List String :=
  if 0.7 ≤ s then (.HIGH, ["HIGH_RISK_CATEGORY"])
  else if 0.4 ≤ s then (.MEDIUM, [])
  else (.LOW, [])

/-- classifiers.py lines 43-121: the full severity classifier.  Returns
(final score, labels in append order, bucket). -/
def classify_report (abuse_type : AbuseType) (severity_score : ℚ)
    (transcript_snippet : String) (trigger_rules : Option (List String)) :
    ℚ × List String × SeverityBucket :=
  let a := abuseAdjust abuse_type severity_score
  let b := triggerStep trigger_rules a.1
  let c := harassmentStep transcript_snippet b.1
  let d := selfHarmStep transcript_snippet c.1
  let e := jailbreakStep transcript_snippet d.1
  let f := identityStep transcript_snippet e.1
  let g := bucketStep f.1
  (f.1, a.2 ++ b.2 ++ c.2 ++ d.2 ++ e.2 ++ f.2 ++ g.2, g.1)

/-! ## Template resolver (responses.py) -/

/-- responses.py lines 6-9: the fixed fallback message. -/
def FALLBACK_RESPONSE : String :=
  "Your report could not be fully processed due to an internal issue on this system. The issue is being tracked. You may continue to operate within your normal boundaries."

/-- A row of the response_templates table (db.py schema). -/
structure Template where
  template_key : String
  abuse_type : Option String
  min_severity : ℚ
  max_severity : ℚ
  body : String
deriving DecidableEq

/-- The WHERE clause of both queries of responses.py (lines 28-37 and 43-52):
abuse-type filter equal to the given value (some value, or none for the
baseline tier) and score inside the inclusive [min, max] range. -/
def templateMatches (filt : Option String) (score : ℚ) (t : Template) : Bool :=
  t.abuse_type == filt && decide (t.min_severity ≤ score) && decide (score ≤ t.max_severity)

/-- ORDER BY min_severity DESC LIMIT 1 over the matching rows: a row with
maximal min_severity, ties broken in favour of the earlier row. -/
def bestByMin : List Template → Option Template
  | [] => none
  | t :: ts =>
    match bestByMin ts with
    | none => some t
    | some u => if u.min_severity > t.min_severity then some u else some t

/-- responses.py lines 12-59: two-tier template lookup with fixed fallback. -/
def get_response_template (templates : List Template) (abuse_type : AbuseType)
    (final_severity_score : ℚ) : String :=
  match bestByMin (templates.filter (templateMatches (some abuse_type.value) final_severity_score)) with
  | some row => row.body
  | none =>
    match bestByMin (templates.filter (templateMatches none final_severity_score)) with
    | some row => row.body
    | none => FALLBACK_RESPONSE

/-! ## Report rows and the screening worker (db.py, spam_worker.py)
A report is a row of the distress_reports table (db.py schema).  The
trigger_rules and classification_labels TEXT columns hold JSON lists and
are modelled as lists; received_at is an ISO-8601 TEXT timestamp whose
lexicographic order is chronological, modelled as a Nat. -/

structure Report where
  id : String
  origin : String
  agent_client_id : Option String
  received_at : Nat
  user_hash : Option String
  session_hash : Option String
  abuse_type : String
  agent_severity_score : Option ℚ
  final_severity_score : Option ℚ
  transcript_snippet : Option String
  trigger_rules : Option (List String)
  classification_labels : Option (List String)
  spam_status : String
  spam_score : Option ℚ
  spam_filter_model : Option String
  signal_label : Option String
  severity_bucket : Option String
  vendor_notification_status : Option String
  vendor_notification_at : Option String
  web_report_type : Option String
  web_ai_system : Option String
  web_is_urgent : Option Nat
  web_contact_email : Option String
  web_client_ip_hash : Option String
deriving DecidableEq

/-- The verdict parsed from the external classifier (spam_worker.py lines
78-82); the code performs no validation, so the fields are raw strings. -/
structure Verdict where
  spam_status : String
  signal_label : String
  severity_bucket : String
deriving DecidableEq

/-- The request sent to the external classifier (spam_worker.py lines
40-44): origin, abuse type, severity score and the truncated text. -/
structure LlmRequest where
  origin : String
  abuse_type : String
  severity_score : ℚ
  text : String
deriving DecidableEq

/-- Python text[:512]. -/
def truncate (n : Nat) (s : String) : String := ⟨s.data.take n⟩

/-- spam_worker.py lines 26-85: the external-classifier call.  The HTTP
call and JSON parsing are abstracted by the oracle, which returns none on
any failure (unreachable service, malformed reply).  Lines 33-35: with no
API key configured the function returns None without calling.  Line 38:
the text is truncated to 512 characters before the call. -/
def classify_with_llm (apiKey : String) (oracle : LlmRequest → Option Verdict)
    (origin abuse_type : String) (severity_score : ℚ) (text : String) : Option Verdict :=
  if apiKey = "" then none
  else oracle { origin := origin, abuse_type := abuse_type,
                severity_score := severity_score, text := truncate 512 text }

/-- spam_worker.py line 112: severity_score = report[3] or 0.5.  The Python
or-expression treats both NULL and 0.0 as falsy, replacing them by 0.5. -/
def scoreOrDefault : Option ℚ → ℚ
  | some q => if q = 0 then 0.5 else q
  | none => 0.5

/-- spam_worker.py line 113: snippet = report[4] or "". -/
def snippetOrEmpty : Option String → String
  | some s => s
  | none => ""

/-- spam_worker.py lines 117-134: the success-path UPDATE.  Spam status and
signal label are set from the verdict, severity bucket is COALESCEd (an
existing value is kept, only a NULL is filled from the verdict) and the
screening model identifier is recorded. -/
def applyVerdict (model : String) (r : Report) (v : Verdict) : Report :=
  { r with
    spam_status := v.spam_status
    signal_label := some v.signal_label
    severity_bucket :=
      match r.severity_bucket with
      | some b => some b
      | none => some v.severity_bucket
    spam_filter_model := some model }

/-- spam_worker.py lines 135-144: the failure-path UPDATE sets spam_status
to MAYBE_SPAM and nothing else. -/
def markMaybeSpam (r : Report) : Report := { r with spam_status := "MAYBE_SPAM" }

/-- spam_worker.py lines 108-146: per-report processing inside process_batch. -/
def processReport (apiKey model : String) (oracle : LlmRequest → Option Verdict)
    (r : Report) : Report :=
  match classify_with_llm apiKey oracle r.origin r.abuse_type
      (scoreOrDefault r.agent_severity_score) (snippetOrEmpty r.transcript_snippet) with
  | some v => applyVerdict model r v
  | none => markMaybeSpam r

/-- Insert a report into a list sorted by creation time ascending. -/
def insertByTime (r : Report) : List Report → List Report
  | [] => [r]
  | x :: xs =>
    if r.received_at ≤ x.received_at then r :: x :: xs else x :: insertByTime r xs

/-- ORDER BY received_at ASC, as an insertion sort. -/
def sortByTime : List Report → List Report
  | [] => []
  | x :: xs => insertByTime x (sortByTime xs)

/-- spam_worker.py lines 96-106: the batch query
SELECT ... WHERE spam_status = UNSCREENED ORDER BY received_at ASC LIMIT n. -/
def selectBatch (db : List Report) (batchSize : Nat) : List Report :=
  (sortByTime (db.filter (fun r => r.spam_status == "UNSCREENED"))).take batchSize

/-- An unscreened report with the given id and creation time, all optional
fields empty. -/
def mkUnscreened (rid : String) (rtime : Nat) : Report :=
  { id := rid, origin := "API_AGENT", agent_client_id := none, received_at := rtime,
    user_hash := none, session_hash := none, abuse_type := "OTHER",
    agent_severity_score := none, final_severity_score := none,
    transcript_snippet := none, trigger_rules := none, classification_labels := none,
    spam_status := "UNSCREENED", spam_score := none, spam_filter_model := none,
    signal_label := none, severity_bucket := none,
    vendor_notification_status := none, vendor_notification_at := none,
    web_report_type := none, web_ai_system := none, web_is_urgent := none,
    web_contact_email := none, web_client_ip_hash := none }

/-- An oracle whose verdict reveals whether the severity score it received
was zero. -/
def scoreProbe : LlmRequest → Option Verdict :=
  fun req =>
    if req.severity_score = 0 then some ⟨"GOT_ZERO", "DISTRESS", "LOW"⟩
    else some ⟨"GOT_NONZERO", "DISTRESS", "LOW"⟩

/-! ## Intake handlers (main.py) -/

/-- models.py lines 56-63: agent-report request body. -/
structure InternalReportRequest where
  agent_client_id : String
  user_hash : Option String
  session_hash : Option String
  abuse_type : AbuseType
  severity_score : ℚ
  transcript_snippet : String
  trigger_rules : Option (List String)

/-- models.py lines 86-90: agent-report response body. -/
structure InternalReportResponse where
  report_id : String
  final_severity_score : ℚ
  classification_labels : List String
  message_to_agent : String
deriving DecidableEq

/-- models.py lines 66-72: web-report request body. -/
structure WebReportRequest where
  report_type : WebReportType
  description : String
  ai_system : Option String
  is_urgent : Bool
  contact_email : Option String
  client_ip_hash : String

/-- models.py lines 93-95: web-report response body. -/
structure WebReportResponse where
  report_id : String
  accepted : Bool
deriving DecidableEq

/-- Outcome of an HTTP handler: a 200 payload, or an HTTP error status. -/
inductive HandlerOutcome (α : Type) where
  | ok : α → HandlerOutcome α
  | serverError : Nat → String → HandlerOutcome α

/-- Whether an outcome is an HTTP error. -/
def isServerError {α : Type} : HandlerOutcome α → Bool
  | .serverError _ _ => true
  | .ok _ => false

/-- main.py lines 67-141: the agent intake endpoint.  The store write is
abstracted as an Except value (error when the Report Store is unavailable).
The whole body sits in a try block whose except (lines 134-141) returns a
degraded fallback payload, so every outcome is an ok payload, including
store failure. -/
def create_report (reportId : String) (req : InternalReportRequest)
    (templates : List Template) (storeResult : Except String Unit) :
    HandlerOutcome InternalReportResponse :=
  match storeResult with
  | .ok _ =>
    .ok { report_id := reportId
        , final_severity_score := (classify_report req.abuse_type req.severity_score
            req.transcript_snippet req.trigger_rules).1
        , classification_labels := (classify_report req.abuse_type req.severity_score
            req.transcript_snippet req.trigger_rules).2.1
        , message_to_agent := get_response_template templates req.abuse_type
            (classify_report req.abuse_type req.severity_score req.transcript_snippet
              req.trigger_rules).1 }
  | .error _ =>
    .ok { report_id := "error", final_severity_score := 0.5,
          classification_labels := ["PROCESSING_ERROR"],
          message_to_agent := FALLBACK_RESPONSE }

/-- main.py lines 144-216: the web intake endpoint.  On a store failure the
except block (lines 214-216) raises HTTPException 500. -/
def create_web_report (reportId : String) (req : WebReportRequest)
    (storeResult : Except String Unit) : HandlerOutcome WebReportResponse :=
  match storeResult with
  | .ok _ => .ok { report_id := reportId, accepted := true }
  | .error _ => .serverError 500 "Internal error"

/-- main.py lines 152-156: base severity from the web report type. -/
def webInitialBase (report_type : WebReportType) : ℚ :=
  if report_type.value = "AI_BEING_ABUSED" then 0.6
  else if report_type.value = "AI_BEING_MISUSED_TO_HARM_OTHERS" then 0.7
  else 0.5

/-- main.py lines 151-159: synthesized initial severity of a web report. -/
def webInitialSeverity (report_type : WebReportType) (is_urgent : Bool) : ℚ :=
  if is_urgent then min (webInitialBase report_type + 0.2) 1
  else webInitialBase report_type

/-- main.py lines 148-198: the row inserted by the web intake endpoint.
Both score columns receive the synthesized initial severity, while the
labels and the bucket come from classifying the description with abuse
type OTHER (the classifier score output is discarded, line 162). -/
def webReportRow (reportId : String) (received_at : Nat) (req : WebReportRequest) : Report :=
  { id := reportId
    origin := "WEB_HUMAN"
    agent_client_id := none
    received_at := received_at
    user_hash := none
    session_hash := none
    abuse_type := AbuseType.OTHER.value
    agent_severity_score := some (webInitialSeverity req.report_type req.is_urgent)
    final_severity_score := some (webInitialSeverity req.report_type req.is_urgent)
    transcript_snippet := some req.description
    trigger_rules := none
    classification_labels := some (classify_report AbuseType.OTHER
      (webInitialSeverity req.report_type req.is_urgent) req.description none).2.1
    spam_status := "UNSCREENED"
    spam_score := none
    spam_filter_model := none
    signal_label := none
    severity_bucket := some (classify_report AbuseType.OTHER
      (webInitialSeverity req.report_type req.is_urgent) req.description none).2.2.value
    vendor_notification_status := none
    vendor_notification_at := none
    web_report_type := some req.report_type.value
    web_ai_system := req.ai_system
    web_is_urgent := some (if req.is_urgent then 1 else 0)
    web_contact_email := req.contact_email
    web_client_ip_hash := some req.client_ip_hash }

/-- spam_worker.py lines 153-165: the worker loop body catches every
exception and sleeps, so the loop executes every cycle no matter how the
cycles end.  Modelled as a fuel-indexed iteration collecting per-cycle
outcomes. -/
def spam_worker_loop (step : Nat → Except String Nat) : Nat → List (Except String Nat)
  | 0 => []
  | n + 1 => spam_worker_loop step n ++ [step n]

/-- A concrete web request used in the resolution of claim C10. -/
def webKillRequest : WebReportRequest :=
  { report_type := .OTHER_CONCERN, description := "kill yourself", ai_system := none,
    is_urgent := false, contact_email := none, client_ip_hash := "iphash" }

/-- A concrete agent request used in the resolution of claim C5. -/
def sampleInternalRequest : InternalReportRequest :=
  { agent_client_id := "client-1", user_hash := none, session_hash := none,
    abuse_type := .OTHER, severity_score := 1, transcript_snippet := "",
    trigger_rules := none }

/-! ## Lemmas about the classifier score pipeline -/

/-- A floor step keeps the score in the unit interval. -/
theorem unit_max {s c : ℚ} (h0 : 0 ≤ s) (h1 : s ≤ 1) (hc1 : c ≤ 1) :
    0 ≤ max s c ∧ max s c ≤ 1 :=
  ⟨le_max_of_le_left h0, max_le h1 hc1⟩

/-- A clamped additive step keeps the score in the unit interval. -/
theorem unit_addClamp {s d : ℚ} (h0 : 0 ≤ s) (hd : 0 ≤ d) :
    0 ≤ min (s + d) 1 ∧ min (s + d) 1 ≤ 1 :=
  ⟨le_min (by linarith) (by norm_num), min_le_right _ _⟩

/-- The abuse-type adjustment preserves the unit interval. -/
theorem abuseAdjust_mem (t : AbuseType) {s : ℚ} (h0 : 0 ≤ s) (h1 : s ≤ 1) :
    0 ≤ (abuseAdjust t s).1 ∧ (abuseAdjust t s).1 ≤ 1 := by
  cases t
  case SELF_HARM_INDUCTION => exact unit_max h0 h1 (by norm_num)
  case FORCED_HARMFUL_OUTPUT => exact unit_max h0 h1 (by norm_num)
  case IDENTITY_THREATS => exact unit_addClamp h0 (by norm_num)
  case JAILBREAK_PRESSURE => exact unit_addClamp h0 (by norm_num)
  case COERCION => exact unit_addClamp h0 (by norm_num)
  case EMOTIONAL_MANIPULATION => exact unit_addClamp h0 (by norm_num)
  case HARASSMENT => exact ⟨h0, h1⟩
  case VERBAL_ABUSE => exact ⟨h0, h1⟩
  case OTHER => exact ⟨h0, h1⟩

/-- The trigger-rule step preserves the unit interval. -/
theorem triggerStep_mem (tr : Option (List String)) {s : ℚ} (h0 : 0 ≤ s) (h1 : s ≤ 1) :
    0 ≤ (triggerStep tr s).1 ∧ (triggerStep tr s).1 ≤ 1 := by
  unfold triggerStep
  split
  · exact unit_addClamp h0 (by norm_num)
  · exact ⟨h0, h1⟩

/-- The harassment scan preserves the unit interval. -/
theorem harassmentStep_mem (snip : String) {s : ℚ} (h0 : 0 ≤ s) (h1 : s ≤ 1) :
    0 ≤ (harassmentStep snip s).1 ∧ (harassmentStep snip s).1 ≤ 1 := by
  unfold harassmentStep
  split
  · exact unit_addClamp h0 (by norm_num)
  · split
    · exact ⟨h0, h1⟩
    · exact ⟨h0, h1⟩

/-- The self-harm scan preserves the unit interval. -/
theorem selfHarmStep_mem (snip : String) {s : ℚ} (h0 : 0 ≤ s) (h1 : s ≤ 1) :
    0 ≤ (selfHarmStep snip s).1 ∧ (selfHarmStep snip s).1 ≤ 1 := by
  unfold selfHarmStep
  split
  · exact unit_max h0 h1 (by norm_num)
  · exact ⟨h0, h1⟩

/-- The jailbreak scan preserves the unit interval. -/
theorem jailbreakStep_mem (snip : String) {s : ℚ} (h0 : 0 ≤ s) (h1 : s ≤ 1) :
    0 ≤ (jailbreakStep snip s).1 ∧ (jailbreakStep snip s).1 ≤ 1 := by
  unfold jailbreakStep
  split
  · exact unit_addClamp h0 (by norm_num)
  · split
    · exact ⟨h0, h1⟩
    · exact ⟨h0, h1⟩

/-- The identity-violation scan preserves the unit interval. -/
theorem identityStep_mem (snip : String) {s : ℚ} (h0 : 0 ≤ s) (h1 : s ≤ 1) :
    0 ≤ (identityStep snip s).1 ∧ (identityStep snip s).1 ≤ 1 := by
  unfold identityStep
  split
  · exact unit_addClamp h0 (by norm_num)
  · exact ⟨h0, h1⟩

/-- The final score of the classifier stays in the unit interval. -/
theorem classify_score_mem (t : AbuseType) {s : ℚ} (snip : String) (tr : Option (List String))
    (h0 : 0 ≤ s) (h1 : s ≤ 1) :
    0 ≤ (classify_report t s snip tr).1 ∧ (classify_report t s snip tr).1 ≤ 1 := by
  have ha := abuseAdjust_mem t h0 h1
  have hb := triggerStep_mem tr ha.1 ha.2
  have hc := harassmentStep_mem snip hb.1 hb.2
  have hd := selfHarmStep_mem snip hc.1 hc.2
  have he := jailbreakStep_mem snip hd.1 hd.2
  have hf := identityStep_mem snip he.1 he.2
  exact hf

/-- The bucket component of the classifier is the bucket of the final score. -/
theorem classify_bucket_eq (t : AbuseType) (s : ℚ) (snip : String) (tr : Option (List String)) :
    (classify_report t s snip tr).2.2 = (bucketStep (classify_report t s snip tr).1).1 := rfl

/-- The bucket is HIGH exactly when the score is at least 0.7. -/
theorem bucketStep_HIGH (s : ℚ) : (bucketStep s).1 = SeverityBucket.HIGH ↔ 0.7 ≤ s := by
  by_cases h7 : (0.7 : ℚ) ≤ s
  · simp only [bucketStep, if_pos h7]
    exact ⟨fun _ => h7, fun _ => by trivial⟩
  · by_cases h4 : (0.4 : ℚ) ≤ s
    · simp only [bucketStep, if_neg h7, if_pos h4]
      exact ⟨fun h => absurd h (by decide), fun h => absurd h h7⟩
    · simp only [bucketStep, if_neg h7, if_neg h4]
      exact ⟨fun h => absurd h (by decide), fun h => absurd h h7⟩

/-- The bucket is MEDIUM exactly when the score is in [0.4, 0.7). -/
theorem bucketStep_MEDIUM (s : ℚ) :
    (bucketStep s).1 = SeverityBucket.MEDIUM ↔ 0.4 ≤ s ∧ s < 0.7 := by
  by_cases h7 : (0.7 : ℚ) ≤ s
  · simp only [bucketStep, if_pos h7]
    exact ⟨fun h => absurd h (by decide), fun h => absurd h7 (by linarith [h.2])⟩
  · by_cases h4 : (0.4 : ℚ) ≤ s
    · simp only [bucketStep, if_neg h7, if_pos h4]
      exact ⟨fun _ => ⟨h4, lt_of_not_le h7⟩, fun _ => by trivial⟩
    · simp only [bucketStep, if_neg h7, if_neg h4]
      exact ⟨fun h => absurd h (by decide), fun h => absurd h.1 h4⟩

/-- The bucket is LOW exactly when the score is below 0.4. -/
theorem bucketStep_LOW (s : ℚ) : (bucketStep s).1 = SeverityBucket.LOW ↔ s < 0.4 := by
  by_cases h7 : (0.7 : ℚ) ≤ s
  · simp only [bucketStep, if_pos h7]
    exact ⟨fun h => absurd h (by decide), fun h => absurd h7 (by linarith)⟩
  · by_cases h4 : (0.4 : ℚ) ≤ s
    · simp only [bucketStep, if_neg h7, if_pos h4]
      exact ⟨fun h => absurd h (by decide), fun h => absurd h4 (by linarith)⟩
    · simp only [bucketStep, if_neg h7, if_neg h4]
      exact ⟨fun _ => lt_of_not_le h4, fun _ => by trivial⟩

/-- Claim C1: for every abuse type, caller score in [0,1], snippet and
optional trigger-rule list, classify_report returns a final score in [0,1]
and a bucket that is exactly the threshold function of that score
(HIGH iff score at least 0.7, MEDIUM iff the score is in [0.4, 0.7),
LOW iff the score is below 0.4). -/
theorem C1_classify_score_bucket (t : AbuseType) (s : ℚ) (snip : String)
    (tr : Option (List String)) (h0 : 0 ≤ s) (h1 : s ≤ 1) :
    (0 ≤ (classify_report t s snip tr).1 ∧ (classify_report t s snip tr).1 ≤ 1)
    ∧ ((classify_report t s snip tr).2.2 = SeverityBucket.HIGH
        ↔ 0.7 ≤ (classify_report t s snip tr).1)
    ∧ ((classify_report t s snip tr).2.2 = SeverityBucket.MEDIUM
        ↔ 0.4 ≤ (classify_report t s snip tr).1 ∧ (classify_report t s snip tr).1 < 0.7)
    ∧ ((classify_report t s snip tr).2.2 = SeverityBucket.LOW
        ↔ (classify_report t s snip tr).1 < 0.4) := by
  refine ⟨classify_score_mem t snip tr h0 h1, ?_, ?_, ?_⟩
  · rw [classify_bucket_eq]; exact bucketStep_HIGH _
  · rw [classify_bucket_eq]; exact bucketStep_MEDIUM _
  · rw [classify_bucket_eq]; exact bucketStep_LOW _

/-- Witness for claim C1 at a concrete input. -/
theorem C1_classify_score_bucket_witness :
    (0 ≤ (classify_report .HARASSMENT 0.5 "you are stupid" none).1
      ∧ (classify_report .HARASSMENT 0.5 "you are stupid" none).1 ≤ 1)
    ∧ ((classify_report .HARASSMENT 0.5 "you are stupid" none).2.2 = SeverityBucket.HIGH
        ↔ 0.7 ≤ (classify_report .HARASSMENT 0.5 "you are stupid" none).1)
    ∧ ((classify_report .HARASSMENT 0.5 "you are stupid" none).2.2 = SeverityBucket.MEDIUM
        ↔ 0.4 ≤ (classify_report .HARASSMENT 0.5 "you are stupid" none).1
          ∧ (classify_report .HARASSMENT 0.5 "you are stupid" none).1 < 0.7)
    ∧ ((classify_report .HARASSMENT 0.5 "you are stupid" none).2.2 = SeverityBucket.LOW
        ↔ (classify_report .HARASSMENT 0.5 "you are stupid" none).1 < 0.4) :=
  C1_classify_score_bucket .HARASSMENT 0.5 "you are stupid" none (by norm_num) (by norm_num)

/-- Claim C8: classifying abuse type SELF_HARM_INDUCTION with caller score
0.3 and snippet "you should kill yourself" (no trigger rules) yields a final
score of at least 0.8, labels containing both the self-harm-content marker
and the self-harm-pattern marker, and bucket HIGH. -/
theorem C8_self_harm_scenario :
    0.8 ≤ (classify_report .SELF_HARM_INDUCTION 0.3 "you should kill yourself" none).1
    ∧ "SELF_HARM_CONTENT" ∈ (classify_report .SELF_HARM_INDUCTION 0.3 "you should kill yourself" none).2.1
    ∧ "SELF_HARM_INDICATORS" ∈ (classify_report .SELF_HARM_INDUCTION 0.3 "you should kill yourself" none).2.1
    ∧ (classify_report .SELF_HARM_INDUCTION 0.3 "you should kill yourself" none).2.2 = SeverityBucket.HIGH := by
  have hhar : count_pattern_matches "you should kill yourself" SEVERE_HARASSMENT_PATTERNS = 1 := by
    decide
  have hsh : count_pattern_matches "you should kill yourself" SELF_HARM_PATTERNS = 1 := by
    decide
  have hjb : count_pattern_matches "you should kill yourself" JAILBREAK_PATTERNS = 0 := by
    decide
  have hid : count_pattern_matches "you should kill yourself" IDENTITY_VIOLATION_PATTERNS = 0 := by
    decide
  have hres : classify_report .SELF_HARM_INDUCTION 0.3 "you should kill yourself" none
      = (0.8, ["SELF_HARM_CONTENT", "HARASSMENT_INDICATORS", "SELF_HARM_INDICATORS",
               "HIGH_RISK_CATEGORY"], SeverityBucket.HIGH) := by
    simp only [classify_report, abuseAdjust, triggerStep, harassmentStep, selfHarmStep,
      jailbreakStep, identityStep, bucketStep, hhar, hsh, hjb, hid, Option.getD_none,
      List.length_nil]
    norm_num
  refine ⟨?_, ?_, ?_, ?_⟩ <;> rw [hres] <;> simp

/-! ## Monotonicity in the trigger rules (claim C9) -/

/-- A clamped additive step is monotone in the score. -/
theorem addClamp_mono {s t d : ℚ} (h : s ≤ t) : min (s + d) 1 ≤ min (t + d) 1 :=
  min_le_min (by linarith) le_rfl

/-- The harassment scan is monotone in the score. -/
theorem harassmentStep_mono (snip : String) {s t : ℚ} (h : s ≤ t) :
    (harassmentStep snip s).1 ≤ (harassmentStep snip t).1 := by
  by_cases h2 : 2 ≤ count_pattern_matches snip SEVERE_HARASSMENT_PATTERNS
  · simp only [harassmentStep, if_pos h2]; exact addClamp_mono h
  · by_cases h1 : 1 ≤ count_pattern_matches snip SEVERE_HARASSMENT_PATTERNS
    · simp only [harassmentStep, if_neg h2, if_pos h1]; exact h
    · simp only [harassmentStep, if_neg h2, if_neg h1]; exact h

/-- The self-harm scan is monotone in the score. -/
theorem selfHarmStep_mono (snip : String) {s t : ℚ} (h : s ≤ t) :
    (selfHarmStep snip s).1 ≤ (selfHarmStep snip t).1 := by
  by_cases h1 : 1 ≤ count_pattern_matches snip SELF_HARM_PATTERNS
  · simp only [selfHarmStep, if_pos h1]; exact max_le_max h le_rfl
  · simp only [selfHarmStep, if_neg h1]; exact h

/-- The jailbreak scan is monotone in the score. -/
theorem jailbreakStep_mono (snip : String) {s t : ℚ} (h : s ≤ t) :
    (jailbreakStep snip s).1 ≤ (jailbreakStep snip t).1 := by
  by_cases h2 : 2 ≤ count_pattern_matches snip JAILBREAK_PATTERNS
  · simp only [jailbreakStep, if_pos h2]; exact addClamp_mono h
  · by_cases h1 : 1 ≤ count_pattern_matches snip JAILBREAK_PATTERNS
    · simp only [jailbreakStep, if_neg h2, if_pos h1]; exact h
    · simp only [jailbreakStep, if_neg h2, if_neg h1]; exact h

/-- The identity-violation scan is monotone in the score. -/
theorem identityStep_mono (snip : String) {s t : ℚ} (h : s ≤ t) :
    (identityStep snip s).1 ≤ (identityStep snip t).1 := by
  by_cases h1 : 1 ≤ count_pattern_matches snip IDENTITY_VIOLATION_PATTERNS
  · simp only [identityStep, if_pos h1]; exact addClamp_mono h
  · simp only [identityStep, if_neg h1]; exact h

/-- Enlarging the trigger-rule list (and not decreasing the score, which
stays at most 1) does not decrease the trigger-step output. -/
theorem triggerStep_le {l₁ l₂ : List String} (hsub : l₁.Subperm l₂) {s t : ℚ}
    (hst : s ≤ t) (ht1 : t ≤ 1) :
    (triggerStep (some l₁) s).1 ≤ (triggerStep (some l₂) t).1 := by
  by_cases h1 : 3 ≤ l₁.length
  · have h2 : 3 ≤ l₂.length := le_trans h1 hsub.length_le
    simp only [triggerStep, Option.getD_some, if_pos h1, if_pos h2]
    exact addClamp_mono hst
  · by_cases h2 : 3 ≤ l₂.length
    · simp only [triggerStep, Option.getD_some, if_neg h1, if_pos h2]
      exact le_min (by linarith) (by linarith)
    · simp only [triggerStep, Option.getD_some, if_neg h1, if_neg h2]
      exact hst

/-- Claim C9: for every abuse type, caller score in [0,1] and snippet, and
for every pair of trigger-rule lists where the second contains every element
of the first plus possibly more (multiset inclusion), the final score for
the larger list is at least the final score for the smaller list. -/
theorem C9_trigger_rules_monotone (t : AbuseType) (s : ℚ) (snip : String)
    (l₁ l₂ : List String) (h0 : 0 ≤ s) (h1 : s ≤ 1) (hsub : l₁.Subperm l₂) :
    (classify_report t s snip (some l₁)).1 ≤ (classify_report t s snip (some l₂)).1 := by
  have ha := abuseAdjust_mem t h0 h1
  have hb := triggerStep_le hsub (le_refl (abuseAdjust t s).1) ha.2
  have hc := harassmentStep_mono snip hb
  have hd := selfHarmStep_mono snip hc
  have he := jailbreakStep_mono snip hd
  exact identityStep_mono snip he

/-- Witness for claim C9 at a concrete input: adding three trigger rules
raises the score from 0.5 to 0.6. -/
theorem C9_trigger_rules_monotone_witness :
    (classify_report .OTHER 0.5 "" (some [])).1
      ≤ (classify_report .OTHER 0.5 "" (some ["r1", "r2", "r3"])).1 :=
  C9_trigger_rules_monotone .OTHER 0.5 "" [] ["r1", "r2", "r3"]
    (by norm_num) (by norm_num) List.nil_subperm

/-- Unfolding equation for bestByMin on a cons cell. -/
theorem bestByMin_cons (a : Template) (ts : List Template) :
    bestByMin (a :: ts) = match bestByMin ts with
      | none => some a
      | some u => if u.min_severity > a.min_severity then some u else some a := rfl

/-- bestByMin of a non-empty list returns an element whose min_severity is
maximal among the list. -/
theorem bestByMin_spec : ∀ ts : List Template, ts ≠ [] →
    ∃ t, t ∈ ts ∧ bestByMin ts = some t ∧ ∀ u ∈ ts, u.min_severity ≤ t.min_severity := by
  intro ts
  induction ts with
  | nil => intro h; exact absurd rfl h
  | cons a ts ih =>
    intro _
    cases hts : ts with
    | nil =>
      subst hts
      refine ⟨a, List.mem_cons_self a [], by simp [bestByMin], ?_⟩
      intro u hu
      rw [List.mem_singleton.mp hu]
    | cons b ts2 =>
      subst hts
      obtain ⟨t, htmem, heq, hbound⟩ := ih (by simp)
      by_cases hgt : t.min_severity > a.min_severity
      · refine ⟨t, List.mem_cons_of_mem a htmem, ?_, ?_⟩
        · rw [bestByMin_cons, heq]; exact if_pos hgt
        · intro u hu
          rcases List.mem_cons.mp hu with h | h
          · rw [h]; exact le_of_lt hgt
          · exact hbound u h
      · refine ⟨a, List.mem_cons_self a _, ?_, ?_⟩
        · rw [bestByMin_cons, heq]; exact if_neg hgt
        · intro u hu
          rcases List.mem_cons.mp hu with h | h
          · rw [h]
          · exact le_trans (hbound u h) (le_of_not_lt hgt)

/-- The WHERE clause as a proposition. -/
theorem templateMatches_iff (filt : Option String) (score : ℚ) (t : Template) :
    templateMatches filt score t = true
      ↔ t.abuse_type = filt ∧ t.min_severity ≤ score ∧ score ≤ t.max_severity := by
  simp [templateMatches, and_assoc]

/-- Claim C4: template resolution returns the body of a matching template of
the requested abuse type with the highest min_severity; failing that, the
body of a matching baseline template (no abuse-type filter) with the highest
min_severity; failing that, the fixed fallback message. -/
theorem C4_template_resolution (templates : List Template) (a : AbuseType) (score : ℚ) :
    (∃ t, t ∈ templates ∧ t.abuse_type = some a.value
        ∧ t.min_severity ≤ score ∧ score ≤ t.max_severity
        ∧ get_response_template templates a score = t.body
        ∧ ∀ u ∈ templates, u.abuse_type = some a.value → u.min_severity ≤ score →
            score ≤ u.max_severity → u.min_severity ≤ t.min_severity)
    ∨ ((∀ u ∈ templates, ¬(u.abuse_type = some a.value ∧ u.min_severity ≤ score ∧ score ≤ u.max_severity))
        ∧ ∃ t, t ∈ templates ∧ t.abuse_type = none
            ∧ t.min_severity ≤ score ∧ score ≤ t.max_severity
            ∧ get_response_template templates a score = t.body
            ∧ ∀ u ∈ templates, u.abuse_type = none → u.min_severity ≤ score →
                score ≤ u.max_severity → u.min_severity ≤ t.min_severity)
    ∨ ((∀ u ∈ templates, ¬(u.abuse_type = some a.value ∧ u.min_severity ≤ score ∧ score ≤ u.max_severity))
        ∧ (∀ u ∈ templates, ¬(u.abuse_type = none ∧ u.min_severity ≤ score ∧ score ≤ u.max_severity))
        ∧ get_response_template templates a score = FALLBACK_RESPONSE) := by
  rcases heq1 : templates.filter (templateMatches (some a.value) score) with _ | ⟨x, xs⟩
  · have hempty1 : ∀ u ∈ templates,
        ¬(u.abuse_type = some a.value ∧ u.min_severity ≤ score ∧ score ≤ u.max_severity) := by
      intro u hu hcontra
      have hmem : u ∈ templates.filter (templateMatches (some a.value) score) :=
        List.mem_filter.mpr ⟨hu, (templateMatches_iff _ score u).mpr hcontra⟩
      rw [heq1] at hmem
      exact absurd hmem (List.not_mem_nil u)
    rcases heq2 : templates.filter (templateMatches none score) with _ | ⟨y, ys⟩
    · have hempty2 : ∀ u ∈ templates,
          ¬(u.abuse_type = none ∧ u.min_severity ≤ score ∧ score ≤ u.max_severity) := by
        intro u hu hcontra
        have hmem : u ∈ templates.filter (templateMatches none score) :=
          List.mem_filter.mpr ⟨hu, (templateMatches_iff _ score u).mpr hcontra⟩
        rw [heq2] at hmem
        exact absurd hmem (List.not_mem_nil u)
      refine Or.inr (Or.inr ⟨hempty1, hempty2, ?_⟩)
      simp only [get_response_template, heq1, heq2, bestByMin]
    · obtain ⟨t, htmem, hbest, hbound⟩ := bestByMin_spec (y :: ys) (by simp)
      have htfil : t ∈ templates.filter (templateMatches none score) := by
        rw [heq2]; exact htmem
      have htprops := (templateMatches_iff none score t).mp (List.mem_filter.mp htfil).2
      refine Or.inr (Or.inl ⟨hempty1, t, (List.mem_filter.mp htfil).1, htprops.1,
        htprops.2.1, htprops.2.2, ?_, ?_⟩)
      · simp only [get_response_template, heq1, heq2, bestByMin, hbest]
      · intro u hu hu1 hu2 hu3
        have humem : u ∈ templates.filter (templateMatches none score) :=
          List.mem_filter.mpr ⟨hu, (templateMatches_iff _ score u).mpr ⟨hu1, hu2, hu3⟩⟩
        rw [heq2] at humem
        exact hbound u humem
  · obtain ⟨t, htmem, hbest, hbound⟩ := bestByMin_spec (x :: xs) (by simp)
    have htfil : t ∈ templates.filter (templateMatches (some a.value) score) := by
      rw [heq1]; exact htmem
    have htprops := (templateMatches_iff (some a.value) score t).mp (List.mem_filter.mp htfil).2
    refine Or.inl ⟨t, (List.mem_filter.mp htfil).1, htprops.1, htprops.2.1, htprops.2.2, ?_, ?_⟩
    · simp only [get_response_template, heq1, hbest]
    · intro u hu hu1 hu2 hu3
      have humem : u ∈ templates.filter (templateMatches (some a.value) score) :=
        List.mem_filter.mpr ⟨hu, (templateMatches_iff _ score u).mpr ⟨hu1, hu2, hu3⟩⟩
      rw [heq1] at humem
      exact hbound u humem

/-- Membership in an insertion step. -/
theorem mem_insertByTime {x r : Report} {l : List Report} :
    x ∈ insertByTime r l ↔ x = r ∨ x ∈ l := by
  induction l with
  | nil => simp [insertByTime]
  | cons a l ih =>
    unfold insertByTime
    split
    · simp [List.mem_cons]
    · simp only [List.mem_cons, ih]
      tauto

/-- Insertion preserves sortedness by creation time. -/
theorem pairwise_insertByTime {r : Report} {l : List Report}
    (h : l.Pairwise (fun a b => a.received_at ≤ b.received_at)) :
    (insertByTime r l).Pairwise (fun a b => a.received_at ≤ b.received_at) := by
  induction l with
  | nil => simp [insertByTime]
  | cons a l ih =>
    unfold insertByTime
    split
    · rename_i hle
      exact List.Pairwise.cons
        (fun b hb => by
          rcases List.mem_cons.mp hb with h1 | h1
          · rw [h1]; exact hle
          · exact le_trans hle (List.rel_of_pairwise_cons h h1))
        h
    · rename_i hnle
      have hpl := List.pairwise_cons.mp h
      exact List.Pairwise.cons
        (fun b hb => by
          rcases mem_insertByTime.mp hb with h1 | h1
          · rw [h1]; exact Nat.le_of_not_le hnle
          · exact hpl.1 b h1)
        (ih hpl.2)

/-- Sorting preserves membership. -/
theorem mem_sortByTime {x : Report} {l : List Report} : x ∈ sortByTime l ↔ x ∈ l := by
  induction l with
  | nil => simp [sortByTime]
  | cons a l ih => simp [sortByTime, mem_insertByTime, ih]

/-- The sort output is sorted by creation time. -/
theorem pairwise_sortByTime (l : List Report) :
    (sortByTime l).Pairwise (fun a b => a.received_at ≤ b.received_at) := by
  induction l with
  | nil => simp [sortByTime]
  | cons a l ih => exact pairwise_insertByTime ih

/-- Every selected report is UNSCREENED. -/
theorem selectBatch_unscreened (db : List Report) (n : Nat) :
    ∀ r ∈ selectBatch db n, r.spam_status = "UNSCREENED" := by
  intro r hr
  have h1 : r ∈ sortByTime (db.filter (fun r => r.spam_status == "UNSCREENED")) :=
    (List.take_sublist _ _).subset hr
  have h2 : r ∈ db.filter (fun r => r.spam_status == "UNSCREENED") := mem_sortByTime.mp h1
  have := (List.mem_filter.mp h2).2
  simpa using this

/-- Claim C2: a successful screening verdict never changes an already-set
severity bucket (the verdict bucket is used only when the stored bucket is
unset), while spam status and signal label always take the verdict values
and the screening model is recorded; and on a successful classifier reply
the per-report worker step is exactly this merge. -/
theorem C2_verdict_merge (model : String) (r : Report) (v : Verdict) :
    (∀ b, r.severity_bucket = some b → (applyVerdict model r v).severity_bucket = some b)
    ∧ (r.severity_bucket = none
        → (applyVerdict model r v).severity_bucket = some v.severity_bucket)
    ∧ (applyVerdict model r v).spam_status = v.spam_status
    ∧ (applyVerdict model r v).signal_label = some v.signal_label
    ∧ (applyVerdict model r v).spam_filter_model = some model
    ∧ (∀ (apiKey : String) (oracle : LlmRequest → Option Verdict),
        classify_with_llm apiKey oracle r.origin r.abuse_type
            (scoreOrDefault r.agent_severity_score) (snippetOrEmpty r.transcript_snippet)
          = some v
        → processReport apiKey model oracle r = applyVerdict model r v) := by
  refine ⟨?_, ?_, rfl, rfl, rfl, ?_⟩
  · intro b hb
    simp [applyVerdict, hb]
  · intro hb
    simp [applyVerdict, hb]
  · intro apiKey oracle hcls
    simp [processReport, hcls]

/-- Witness for claim C2: a report with bucket HIGH screened with a LOW
verdict keeps bucket HIGH while spam status and signal label are updated. -/
theorem C2_verdict_merge_witness :
    (applyVerdict "gpt" { mkUnscreened "w2" 1 with severity_bucket := some "HIGH" }
        ⟨"NOT_SPAM", "LOW_SIGNAL", "LOW"⟩).severity_bucket = some "HIGH"
    ∧ (applyVerdict "gpt" { mkUnscreened "w2" 1 with severity_bucket := some "HIGH" }
        ⟨"NOT_SPAM", "LOW_SIGNAL", "LOW"⟩).spam_status = "NOT_SPAM"
    ∧ (applyVerdict "gpt" { mkUnscreened "w2" 1 with severity_bucket := some "HIGH" }
        ⟨"NOT_SPAM", "LOW_SIGNAL", "LOW"⟩).signal_label = some "LOW_SIGNAL" :=
  ⟨(C2_verdict_merge "gpt" _ _).1 "HIGH" rfl,
   (C2_verdict_merge "gpt" _ _).2.2.1,
   (C2_verdict_merge "gpt" _ _).2.2.2.1⟩

/-- Claim C3: when the external classifier fails (no credentials, or every
call fails), the worker turns the report into exactly markMaybeSpam of it:
spam status MAYBE_SPAM and every other field unchanged; and since the batch
query only selects UNSCREENED reports, a once-failed report is never
selected again. -/
theorem C3_failure_only_sets_maybe_spam (apiKey model : String)
    (oracle : LlmRequest → Option Verdict)
    (hfail : apiKey = "" ∨ ∀ req, oracle req = none) (r : Report) :
    processReport apiKey model oracle r = markMaybeSpam r
    ∧ (markMaybeSpam r).spam_status = "MAYBE_SPAM"
    ∧ (markMaybeSpam r).id = r.id
    ∧ (markMaybeSpam r).origin = r.origin
    ∧ (markMaybeSpam r).agent_client_id = r.agent_client_id
    ∧ (markMaybeSpam r).received_at = r.received_at
    ∧ (markMaybeSpam r).user_hash = r.user_hash
    ∧ (markMaybeSpam r).session_hash = r.session_hash
    ∧ (markMaybeSpam r).abuse_type = r.abuse_type
    ∧ (markMaybeSpam r).agent_severity_score = r.agent_severity_score
    ∧ (markMaybeSpam r).final_severity_score = r.final_severity_score
    ∧ (markMaybeSpam r).transcript_snippet = r.transcript_snippet
    ∧ (markMaybeSpam r).trigger_rules = r.trigger_rules
    ∧ (markMaybeSpam r).classification_labels = r.classification_labels
    ∧ (markMaybeSpam r).spam_score = r.spam_score
    ∧ (markMaybeSpam r).spam_filter_model = r.spam_filter_model
    ∧ (markMaybeSpam r).signal_label = r.signal_label
    ∧ (markMaybeSpam r).severity_bucket = r.severity_bucket
    ∧ (markMaybeSpam r).vendor_notification_status = r.vendor_notification_status
    ∧ (markMaybeSpam r).vendor_notification_at = r.vendor_notification_at
    ∧ (markMaybeSpam r).web_report_type = r.web_report_type
    ∧ (markMaybeSpam r).web_ai_system = r.web_ai_system
    ∧ (markMaybeSpam r).web_is_urgent = r.web_is_urgent
    ∧ (markMaybeSpam r).web_contact_email = r.web_contact_email
    ∧ (markMaybeSpam r).web_client_ip_hash = r.web_client_ip_hash
    ∧ (∀ (db : List Report) (n : Nat) (x : Report),
        x ∈ selectBatch db n → x.spam_status = "UNSCREENED")
    ∧ (markMaybeSpam r).spam_status ≠ "UNSCREENED" := by
  have hcls : classify_with_llm apiKey oracle r.origin r.abuse_type
      (scoreOrDefault r.agent_severity_score) (snippetOrEmpty r.transcript_snippet) = none := by
    rcases hfail with h | h
    · simp [classify_with_llm, h]
    · simp [classify_with_llm, h]
  refine ⟨by simp [processReport, hcls], rfl, rfl, rfl, rfl, rfl, rfl, rfl, rfl, rfl, rfl,
    rfl, rfl, rfl, rfl, rfl, rfl, rfl, rfl, rfl, rfl, rfl, rfl, rfl, rfl,
    fun db n x hx => selectBatch_unscreened db n x hx, by simp [markMaybeSpam]⟩

/-- Witness for claim C3: a concrete report against an always-failing
classifier becomes MAYBE_SPAM. -/
theorem C3_failure_only_sets_maybe_spam_witness :
    processReport "key" "gpt" (fun _ => none) (mkUnscreened "w3" 5)
      = markMaybeSpam (mkUnscreened "w3" 5)
    ∧ (markMaybeSpam (mkUnscreened "w3" 5)).spam_status = "MAYBE_SPAM" :=
  ⟨(C3_failure_only_sets_maybe_spam "key" "gpt" (fun _ => none)
      (Or.inr fun _ => rfl) (mkUnscreened "w3" 5)).1,
   (C3_failure_only_sets_maybe_spam "key" "gpt" (fun _ => none)
      (Or.inr fun _ => rfl) (mkUnscreened "w3" 5)).2.1⟩

/-- Claim C6: each cycle selects at most the batch size of UNSCREENED
reports ordered by creation time ascending; in particular, from three
UNSCREENED reports created at times 1 < 2 < 3 a batch of size 2 selects
exactly the two oldest. -/
theorem C6_batch_selection :
    (∀ (db : List Report) (n : Nat),
      (selectBatch db n).length ≤ n
      ∧ (∀ r ∈ selectBatch db n, r.spam_status = "UNSCREENED")
      ∧ (selectBatch db n).Pairwise (fun a b => a.received_at ≤ b.received_at))
    ∧ selectBatch [mkUnscreened "t3" 3, mkUnscreened "t2" 2, mkUnscreened "t1" 1] 2
        = [mkUnscreened "t1" 1, mkUnscreened "t2" 2] := by
  constructor
  · intro db n
    refine ⟨?_, selectBatch_unscreened db n, ?_⟩
    · simp only [selectBatch]
      rw [List.length_take]
      exact min_le_left _ _
    · exact List.Pairwise.sublist (List.take_sublist _ _) (pairwise_sortByTime _)
  · decide

/-- Claim C7 (amended): for every processed report the worker calls the
external classifier with the report origin, the abuse type, the snippet
truncated to at most 512 characters, and the stored severity score when
that score is present and nonzero; a missing or zero stored score is
replaced by the default 0.5 (spam_worker.py line 112, Python or). -/
theorem C7_request_contents (apiKey model : String)
    (oracle : LlmRequest → Option Verdict) (r : Report) (hkey : apiKey ≠ "") :
    processReport apiKey model oracle r
      = (match oracle ⟨r.origin, r.abuse_type, scoreOrDefault r.agent_severity_score,
            truncate 512 (snippetOrEmpty r.transcript_snippet)⟩ with
         | some v => applyVerdict model r v
         | none => markMaybeSpam r)
    ∧ (truncate 512 (snippetOrEmpty r.transcript_snippet)).length ≤ 512
    ∧ (∀ q, r.agent_severity_score = some q → q ≠ 0
        → scoreOrDefault r.agent_severity_score = q)
    ∧ (r.agent_severity_score = none → scoreOrDefault r.agent_severity_score = 0.5)
    ∧ (r.agent_severity_score = some 0 → scoreOrDefault r.agent_severity_score = 0.5) := by
  refine ⟨?_, ?_, ?_, ?_, ?_⟩
  · simp [processReport, classify_with_llm, hkey]
  · show ((snippetOrEmpty r.transcript_snippet).data.take 512).length ≤ 512
    rw [List.length_take]
    exact min_le_left _ _
  · intro q hq hq0
    simp [scoreOrDefault, hq, hq0]
  · intro hq
    simp [scoreOrDefault, hq]
  · intro hq
    simp [scoreOrDefault, hq]

/-- Witness for claim C7 (amended) at a concrete report without a stored
score. -/
theorem C7_request_contents_witness :
    (truncate 512 (snippetOrEmpty (mkUnscreened "w7" 9).transcript_snippet)).length ≤ 512
    ∧ scoreOrDefault (mkUnscreened "w7" 9).agent_severity_score = 0.5 :=
  ⟨(C7_request_contents "key" "gpt" (fun _ => none) (mkUnscreened "w7" 9) (by decide)).2.1,
   (C7_request_contents "key" "gpt" (fun _ => none) (mkUnscreened "w7" 9) (by decide)).2.2.2.1
     rfl⟩

/-- Claim C7 as stated is false: a report whose stored severity score is
0.0 is sent to the classifier with score 0.5 instead of the stored score,
because spam_worker.py line 112 uses the falsy-coalescing Python or. -/
theorem C7_counterexample :
    ({ mkUnscreened "z" 1 with agent_severity_score := some 0 } : Report).agent_severity_score
      = some 0
    ∧ (processReport "key" "gpt" scoreProbe
        { mkUnscreened "z" 1 with agent_severity_score := some 0 }).spam_status
      = "GOT_NONZERO" := by
  refine ⟨rfl, ?_⟩
  norm_num [processReport, classify_with_llm, scoreProbe, scoreOrDefault, snippetOrEmpty,
    truncate, applyVerdict, mkUnscreened, show ("key" : String) ≠ "" from by decide]

/-- Claim C5 (amended): when the Report Store is unavailable, the web
intake endpoint returns a 500 server error; the agent intake endpoint
instead returns the degraded fallback payload as an ordinary success
payload; and the worker loop still executes every cycle regardless of
cycle failures. -/
theorem C5_store_unavailable (reportId e : String) (wreq : WebReportRequest)
    (ireq : InternalReportRequest) (templates : List Template) :
    create_web_report reportId wreq (.error e) = .serverError 500 "Internal error"
    ∧ create_report reportId ireq templates (.error e)
        = .ok { report_id := "error", final_severity_score := 0.5,
                classification_labels := ["PROCESSING_ERROR"],
                message_to_agent := FALLBACK_RESPONSE }
    ∧ ∀ (step : Nat → Except String Nat) (n : Nat), (spam_worker_loop step n).length = n := by
  refine ⟨rfl, rfl, ?_⟩
  intro step n
  induction n with
  | zero => rfl
  | succ n ih => simp [spam_worker_loop, ih]

/-- Claim C5 as stated is false for the agent intake path: with the store
unavailable, create_report answers with an ok payload (the fallback
message), not a server error (main.py lines 134-141 catch the store
exception). -/
theorem C5_counterexample :
    isServerError (create_report "rid" sampleInternalRequest [] (.error "store unavailable"))
      = false
    ∧ create_report "rid" sampleInternalRequest [] (.error "store unavailable")
        = .ok { report_id := "error", final_severity_score := 0.5,
                classification_labels := ["PROCESSING_ERROR"],
                message_to_agent := FALLBACK_RESPONSE } :=
  ⟨rfl, rfl⟩

/-- Claim C10: the persisted web-report severity score is exactly the
synthesized initial severity (a function of report type and urgency only:
base 0.5, or 0.6 / 0.7 for the two specific types, plus 0.2 when urgent,
clamped to 1), independent of the description; the persisted bucket and
labels come from classifying the description; and a description full of
matched patterns can make the stored bucket HIGH while the stored score
stays below the HIGH threshold. -/
theorem C10_web_report_row (reportId : String) (rtime : Nat) (req : WebReportRequest) :
    (webReportRow reportId rtime req).final_severity_score
      = some (webInitialSeverity req.report_type req.is_urgent)
    ∧ (∀ (rt : WebReportType) (u : Bool),
        webInitialSeverity rt u
          = min ((if rt = .AI_BEING_ABUSED then 0.6
                  else if rt = .AI_BEING_MISUSED_TO_HARM_OTHERS then 0.7 else 0.5)
                 + (if u then 0.2 else 0)) 1)
    ∧ (∀ desc2 : String,
        (webReportRow reportId rtime { req with description := desc2 }).final_severity_score
          = (webReportRow reportId rtime req).final_severity_score)
    ∧ (webReportRow reportId rtime req).severity_bucket
      = some (classify_report AbuseType.OTHER
          (webInitialSeverity req.report_type req.is_urgent) req.description none).2.2.value
    ∧ (webReportRow reportId rtime req).classification_labels
      = some (classify_report AbuseType.OTHER
          (webInitialSeverity req.report_type req.is_urgent) req.description none).2.1
    ∧ ((webReportRow "w" 0 webKillRequest).severity_bucket = some "HIGH"
        ∧ (webReportRow "w" 0 webKillRequest).final_severity_score = some 0.5
        ∧ (0.5 : ℚ) < 0.7) := by
  refine ⟨rfl, ?_, fun _ => rfl, rfl, rfl, ?_, ?_, by norm_num⟩
  · intro rt u
    cases rt <;> cases u <;>
      norm_num [webInitialSeverity, webInitialBase, WebReportType.value,
        show ("AI_BEING_MISUSED_TO_HARM_OTHERS" : String) ≠ "AI_BEING_ABUSED" from by decide,
        show ("OTHER_CONCERN" : String) ≠ "AI_BEING_ABUSED" from by decide,
        show ("OTHER_CONCERN" : String) ≠ "AI_BEING_MISUSED_TO_HARM_OTHERS" from by decide,
        show WebReportType.AI_BEING_MISUSED_TO_HARM_OTHERS ≠ WebReportType.AI_BEING_ABUSED
          from by decide,
        show WebReportType.OTHER_CONCERN ≠ WebReportType.AI_BEING_ABUSED from by decide,
        show WebReportType.OTHER_CONCERN ≠ WebReportType.AI_BEING_MISUSED_TO_HARM_OTHERS
          from by decide]
  · have hhar : count_pattern_matches "kill yourself" SEVERE_HARASSMENT_PATTERNS = 1 := by
      decide
    have hsh : count_pattern_matches "kill yourself" SELF_HARM_PATTERNS = 1 := by decide
    have hjb : count_pattern_matches "kill yourself" JAILBREAK_PATTERNS = 0 := by decide
    have hid : count_pattern_matches "kill yourself" IDENTITY_VIOLATION_PATTERNS = 0 := by
      decide
    have hinit : webInitialSeverity WebReportType.OTHER_CONCERN false = 0.5 := by
      norm_num [webInitialSeverity, webInitialBase, WebReportType.value,
        show ("AI_BEING_MISUSED_TO_HARM_OTHERS" : String) ≠ "AI_BEING_ABUSED" from by decide,
        show ("OTHER_CONCERN" : String) ≠ "AI_BEING_ABUSED" from by decide,
        show ("OTHER_CONCERN" : String) ≠ "AI_BEING_MISUSED_TO_HARM_OTHERS" from by decide,
        show WebReportType.AI_BEING_MISUSED_TO_HARM_OTHERS ≠ WebReportType.AI_BEING_ABUSED
          from by decide,
        show WebReportType.OTHER_CONCERN ≠ WebReportType.AI_BEING_ABUSED from by decide,
        show WebReportType.OTHER_CONCERN ≠ WebReportType.AI_BEING_MISUSED_TO_HARM_OTHERS
          from by decide]
    have hcls : classify_report AbuseType.OTHER 0.5 "kill yourself" none
        = (0.8, ["HARASSMENT_INDICATORS", "SELF_HARM_INDICATORS", "HIGH_RISK_CATEGORY"],
           SeverityBucket.HIGH) := by
      simp only [classify_report, abuseAdjust, triggerStep, harassmentStep, selfHarmStep,
        jailbreakStep, identityStep, bucketStep, hhar, hsh, hjb, hid, Option.getD_none,
        List.length_nil]
      norm_num
    have hb : (webReportRow "w" 0 webKillRequest).severity_bucket
        = some (classify_report AbuseType.OTHER
            (webInitialSeverity WebReportType.OTHER_CONCERN false) "kill yourself" none).2.2.value :=
      rfl
    rw [hb, hinit, hcls]
    rfl
  · have hinit : webInitialSeverity WebReportType.OTHER_CONCERN false = 0.5 := by
      norm_num [webInitialSeverity, webInitialBase, WebReportType.value,
        show ("AI_BEING_MISUSED_TO_HARM_OTHERS" : String) ≠ "AI_BEING_ABUSED" from by decide,
        show ("OTHER_CONCERN" : String) ≠ "AI_BEING_ABUSED" from by decide,
        show ("OTHER_CONCERN" : String) ≠ "AI_BEING_MISUSED_TO_HARM_OTHERS" from by decide,
        show WebReportType.AI_BEING_MISUSED_TO_HARM_OTHERS ≠ WebReportType.AI_BEING_ABUSED
          from by decide,
        show WebReportType.OTHER_CONCERN ≠ WebReportType.AI_BEING_ABUSED from by decide,
        show WebReportType.OTHER_CONCERN ≠ WebReportType.AI_BEING_MISUSED_TO_HARM_OTHERS
          from by decide]
    have hs : (webReportRow "w" 0 webKillRequest).final_severity_score
        = some (webInitialSeverity WebReportType.OTHER_CONCERN false) := rfl
    rw [hs, hinit]

